import Mathlib

/-!
Verification development for the Jenkins provisioning stack
(`src/lib/benkhard-jenkins-stack.ts` plus the bin entry point).

The stack constructor is declarative: it builds a record of resources,
grants, connection rules and one forced property override.  We embed it as
a pure function `buildStack : Env → StackModel`, where `Env` carries the
pieces that the underlying platform libraries synthesize (role ARNs, the
task-definition family, the default container with its log-driver
configuration, and the ids of the file system and access point).  Fields
that the source accesses through optional chaining (`?.`) are `Option`s
in `Env`, so the embedding is total exactly where the source is.
-/

namespace BenkhardJenkins

/-- Log-driver configuration of a container, as exposed by the container
construct (`logDriverConfig`): a driver name and optional driver options. -/
structure LogDriverConfig where
  logDriver : String
  options : Option (List (String × String))
deriving DecidableEq, Repr

/-- The default container of the placeholder task definition, as exposed by
the service builder (`taskDefinition.defaultContainer`). -/
structure DefaultContainer where
  containerName : String
  logDriverConfig : Option LogDriverConfig
deriving DecidableEq, Repr

/-- The extrinsic, library-synthesized parts of the placeholder task
definition created by the service builder: the execution role is optional
(the source reads it with `executionRole?.roleArn`), the task role always
exists (`taskRole.roleArn`), and the default container is optional
(`defaultContainer?.`). -/
structure PlaceholderEnv where
  executionRoleArn : Option String
  taskRoleArn : String
  family : String
  defaultContainer : Option DefaultContainer
deriving DecidableEq, Repr

/-- Deploy-time environment: values that are only known once the external
lookups and the library-created resources resolve. -/
structure Env where
  certificateArn : String
  hostedZoneId : String
  clusterArn : String
  fileSystemId : String
  accessPointId : String
  placeholder : PlaceholderEnv
deriving DecidableEq, Repr

/-- `ecs.MountPoint` (source lines 73-77). -/
structure MountPoint where
  containerPath : String
  sourceVolume : String
  readOnly : Bool
deriving DecidableEq, Repr

/-- A port mapping entry of `customTaskDefinitionJson`. -/
structure PortMapping where
  containerPort : Nat
  protocol : String
deriving DecidableEq, Repr

/-- `authorizationConfig` of the EFS volume configuration. -/
structure AuthorizationConfig where
  accessPointId : String
deriving DecidableEq, Repr

/-- `efsVolumeConfiguration` of the declared volume (source lines 63-70). -/
structure EfsVolumeConfiguration where
  fileSystemId : String
  rootDirectory : String
  transitEncryption : String
  authorizationConfig : AuthorizationConfig
deriving DecidableEq, Repr

/-- `ecs.Volume` (source lines 61-71). -/
structure Volume where
  name : String
  efsVolumeConfiguration : EfsVolumeConfiguration
deriving DecidableEq, Repr

/-- The `logConfiguration` block of the registered container definition:
both fields come from the placeholder through optional chaining, so both
may be undefined. -/
structure LogConfiguration where
  logDriver : Option String
  options : Option (List (String × String))
deriving DecidableEq, Repr

/-- A container definition inside `customTaskDefinitionJson`
(source lines 100-122). -/
structure ContainerDefinition where
  essential : Bool
  image : String
  logConfiguration : LogConfiguration
  memory : Nat
  mountPoints : List MountPoint
  name : Option String
  portMappings : List PortMapping
deriving DecidableEq, Repr

/-- The descriptor passed to the register-task-definition call
(`customTaskDefinitionJson`, source lines 99-131). -/
structure TaskDefinitionDescriptor where
  containerDefinitions : List ContainerDefinition
  cpu : Nat
  executionRoleArn : Option String
  family : String
  memory : Nat
  networkMode : String
  requiresCompatibilities : List String
  taskRoleArn : String
  volumes : List Volume
deriving DecidableEq, Repr

/-- The SDK call object `createOrUpdateCustomTaskDefinition`
(source lines 133-141). -/
structure SdkCall where
  service : String
  action : String
  outputPath : String
  parameters : TaskDefinitionDescriptor
  physicalResourceIdResponseField : String
deriving DecidableEq, Repr

/-- The `AwsCustomResource` coordinator props: the two lifecycle paths
(source lines 147-148). -/
structure CustomResourceProps where
  onCreate : SdkCall
  onUpdate : SdkCall
deriving DecidableEq, Repr

/-- The access point added on the file system (source lines 48-59). -/
structure AccessPointProps where
  aclOwnerGid : String
  aclOwnerUid : String
  aclPermissions : String
  path : String
  posixGid : String
  posixUid : String
deriving DecidableEq, Repr

/-- The EFS file system (source lines 41-46). -/
structure FileSystemProps where
  fileSystemName : String
  encrypted : Bool
  performanceMode : String
deriving DecidableEq, Repr

/-- What the `TaskDefinition` property of the underlying `CfnService` can
refer to: the placeholder task definition created by the service builder
(a reference to that resource), or a response field of the custom
resource's register call (`getResponseField`).  These are distinct kinds
of CloudFormation references. -/
inductive TaskDefRef where
  | placeholder : TaskDefRef
  | customResponse (field : String) : TaskDefRef
deriving DecidableEq, Repr

/-- The mutable state of the underlying `CfnService` child: its
`TaskDefinition` property. -/
structure CfnServiceState where
  taskDefinition : TaskDefRef
deriving DecidableEq, Repr

/-- Direction of a security-group connection rule. -/
inductive Direction where
  | ingress : Direction
  | egress : Direction
deriving DecidableEq, Repr

/-- A connection rule recorded by `connections.allowFrom` (ingress) or
`connections.allowTo` (egress). -/
structure ConnectionRule where
  direction : Direction
  peer : String
  protocol : String
  port : Nat
deriving DecidableEq, Repr

/-- The placeholder task definition as built by the service builder from
the props of source lines 84-97 plus the library-synthesized parts. -/
structure PlaceholderTaskDefinition where
  image : String
  cpu : Nat
  memoryLimitMiB : Nat
  containerPort : Nat
  executionRoleArn : Option String
  taskRoleArn : String
  family : String
  defaultContainer : Option DefaultContainer
deriving DecidableEq, Repr

/-- Target-group state: the health-check path (library default is the root
path until `configureHealthCheck` changes it). -/
structure TargetGroupState where
  healthCheckPath : String
deriving DecidableEq, Repr

/-- Props passed to the `ApplicationLoadBalancedFargateService` pattern
construct (source lines 84-97). -/
structure ALBFargateServiceProps where
  clusterName : String
  platformVersion : String
  cpu : Nat
  desiredCount : Nat
  image : String
  containerPort : Nat
  memoryLimitMiB : Nat
  publicLoadBalancer : Bool
  assignPublicIp : Bool
  certificateArn : String
  domainName : String
  domainZoneId : String
deriving DecidableEq, Repr

/-- The bundle produced by the pattern construct: the recorded props, the
placeholder task definition, the underlying `CfnService` child (the
library construct always creates one, under the id "Service"), the
listener protocol, and the target group. -/
structure ALBFargateService where
  props : ALBFargateServiceProps
  listenerProtocol : String
  taskDefinition : PlaceholderTaskDefinition
  cfnService : Option CfnServiceState
  targetGroup : TargetGroupState
deriving DecidableEq, Repr

/-- Models the library pattern construct `ApplicationLoadBalancedFargateService`
(an external collaborator, per its documented contract): it builds a task
definition sized from the props, with a single container exposing the
given port, role/family/default-container synthesized by the library
(taken from `PlaceholderEnv`); because a certificate is supplied the
listener speaks HTTPS; the service's underlying `CfnService` child exists
(id "Service") and initially references the placeholder task definition;
the target-group health check defaults to the root path. -/
def applicationLoadBalancedFargateService (props : ALBFargateServiceProps)
    (ph : PlaceholderEnv) : ALBFargateService :=
  { props := props
    listenerProtocol := "HTTPS"
    taskDefinition :=
      { image := props.image
        cpu := props.cpu
        memoryLimitMiB := props.memoryLimitMiB
        containerPort := props.containerPort
        executionRoleArn := ph.executionRoleArn
        taskRoleArn := ph.taskRoleArn
        family := ph.family
        defaultContainer := ph.defaultContainer }
    cfnService := some { taskDefinition := TaskDefRef.placeholder }
    targetGroup := { healthCheckPath := "/" } }

/-- The override step (source lines 175-180): `tryFindChild("Service")` is
used through optional chaining, so the property override is applied only
when the child was found; a missing child is passed through unchanged. -/
def applyOverride (child : Option CfnServiceState) (ref : TaskDefRef) :
    Option CfnServiceState :=
  match child with
  | some c => some { c with taskDefinition := ref }
  | none => none

/-- `configureHealthCheck` (source lines 182-184). -/
def configureHealthCheck (tg : TargetGroupState) (p : String) :
    TargetGroupState :=
  { tg with healthCheckPath := p }

/-- Constant `image` (source line 79). -/
def image : String := "jenkins/jenkins"

/-- Constant `cpu` (source line 80). -/
def cpu : Nat := 256

/-- Constant `memoryLimit` (source line 81). -/
def memoryLimit : Nat := 1024

/-- Constant `containerPort` (source line 82). -/
def containerPort : Nat := 8080

/-- Everything the stack constructor declares, after all in-place
mutations (`addPropertyOverride`, `configureHealthCheck`) have run. -/
structure StackModel where
  clusterName : String
  ssmParameters : List (String × String)
  certificateArn : String
  hostedZoneId : String
  hostedZoneName : String
  fileSystem : FileSystemProps
  accessPoint : AccessPointProps
  efsVolume : Volume
  jenkinsEfsMountPoint : MountPoint
  loadBalancerFargateService : ALBFargateService
  customTaskDefinitionJson : TaskDefinitionDescriptor
  customTaskDefinition : CustomResourceProps
  tags : List (String × String)
  passRoleGrants : List String
  connectionRules : List ConnectionRule
  overrideApplied : Bool
deriving DecidableEq, Repr

/-- The `BenkhardJenkinsStack` constructor, translated line by line from
`src/lib/benkhard-jenkins-stack.ts`.  The constructor contains no throw
site; every optional access is through `?.`, so the embedding is a total
function of the environment. -/
def buildStack (env : Env) : StackModel :=
  let efsVolume : Volume :=
    { name := "efs"
      efsVolumeConfiguration :=
        { fileSystemId := env.fileSystemId
          rootDirectory := "/"
          transitEncryption := "ENABLED"
          authorizationConfig := { accessPointId := env.accessPointId } } }
  let jenkinsEfsMountPoint : MountPoint :=
    { containerPath := "/var/jenkins_home"
      sourceVolume := efsVolume.name
      readOnly := false }
  let lbfs : ALBFargateService :=
    applicationLoadBalancedFargateService
      { clusterName := "jenkins-cluster"
        platformVersion := "1.4"
        cpu := cpu
        desiredCount := 1
        image := image
        containerPort := containerPort
        memoryLimitMiB := memoryLimit
        publicLoadBalancer := true
        assignPublicIp := true
        certificateArn := env.certificateArn
        domainName := "jenkins.benkhard.com"
        domainZoneId := env.hostedZoneId }
      env.placeholder
  let customTaskDefinitionJson : TaskDefinitionDescriptor :=
    { containerDefinitions :=
        [ { essential := true
            image := image
            logConfiguration :=
              { logDriver :=
                  (lbfs.taskDefinition.defaultContainer.bind
                    (fun c => c.logDriverConfig)).map (fun l => l.logDriver)
                options :=
                  (lbfs.taskDefinition.defaultContainer.bind
                    (fun c => c.logDriverConfig)).bind (fun l => l.options) }
            memory := memoryLimit
            mountPoints := [jenkinsEfsMountPoint]
            name := lbfs.taskDefinition.defaultContainer.map
              (fun c => c.containerName)
            portMappings :=
              [ { containerPort := containerPort, protocol := "tcp" } ] } ]
      cpu := cpu
      executionRoleArn := lbfs.taskDefinition.executionRoleArn
      family := lbfs.taskDefinition.family
      memory := memoryLimit
      networkMode := "awsvpc"
      requiresCompatibilities := ["FARGATE"]
      taskRoleArn := lbfs.taskDefinition.taskRoleArn
      volumes := [efsVolume] }
  let createOrUpdateCustomTaskDefinition : SdkCall :=
    { service := "ECS"
      action := "registerTaskDefinition"
      outputPath := "taskDefinition.taskDefinitionArn"
      parameters := customTaskDefinitionJson
      physicalResourceIdResponseField := "taskDefinition.taskDefinitionArn" }
  let customTaskDefinition : CustomResourceProps :=
    { onCreate := createOrUpdateCustomTaskDefinition
      onUpdate := createOrUpdateCustomTaskDefinition }
  let passRoleGrants : List String :=
    (match lbfs.taskDefinition.executionRoleArn with
      | some r => [r]
      | none => []) ++ [lbfs.taskDefinition.taskRoleArn]
  let connectionRules : List ConnectionRule :=
    [ { direction := Direction.ingress, peer := "JenkinsEfsFileSystem"
        protocol := "tcp", port := 2049 }
    , { direction := Direction.egress, peer := "JenkinsEfsFileSystem"
        protocol := "tcp", port := 2049 } ]
  let overriddenChild : Option CfnServiceState :=
    applyOverride lbfs.cfnService
      (TaskDefRef.customResponse "taskDefinition.taskDefinitionArn")
  let lbfsFinal : ALBFargateService :=
    { lbfs with
        cfnService := overriddenChild
        targetGroup := configureHealthCheck lbfs.targetGroup "/login" }
  { clusterName := "jenkins-cluster"
    ssmParameters :=
      [ ("/com/benkhard/platform-cluster-arn", env.clusterArn)
      , ("/com/benkhard/platform-cluster-name", "jenkins-cluster") ]
    certificateArn := env.certificateArn
    hostedZoneId := env.hostedZoneId
    hostedZoneName := "benkhard.com"
    fileSystem :=
      { fileSystemName := "jenkins-fs", encrypted := true
        performanceMode := "GENERAL_PURPOSE" }
    accessPoint :=
      { aclOwnerGid := "1000", aclOwnerUid := "1000", aclPermissions := "777"
        path := "/jenkins", posixGid := "1000", posixUid := "1000" }
    efsVolume := efsVolume
    jenkinsEfsMountPoint := jenkinsEfsMountPoint
    loadBalancerFargateService := lbfsFinal
    customTaskDefinitionJson := customTaskDefinitionJson
    customTaskDefinition := customTaskDefinition
    tags := [("service", "jenkins")]
    passRoleGrants := passRoleGrants
    connectionRules := connectionRules
    overrideApplied := overriddenChild.isSome }

/-- C1: at the end of provisioning, for every run of the stack
construction, the underlying service's `TaskDefinition` property refers to
the response field of the coordinator's register call (the revision that
includes the volume mount: the registered descriptor's single container
carries the `/var/jenkins_home` mount point), and never to the placeholder
task definition created by the service builder. -/
theorem service_taskdef_is_registered_revision (env : Env) :
    (buildStack env).loadBalancerFargateService.cfnService =
      some { taskDefinition := TaskDefRef.customResponse (buildStack env).customTaskDefinition.onCreate.outputPath } ∧
    (∀ c ∈ (buildStack env).customTaskDefinition.onCreate.parameters.containerDefinitions,
      { containerPath := "/var/jenkins_home", sourceVolume := "efs",
        readOnly := false : MountPoint } ∈ c.mountPoints) ∧
    ∀ s ∈ (buildStack env).loadBalancerFargateService.cfnService,
      s.taskDefinition ≠ TaskDefRef.placeholder := by
  refine ⟨rfl, ?_, ?_⟩
  · intro c hc
    simp only [buildStack, applicationLoadBalancedFargateService,
      List.mem_singleton] at hc
    subst hc
    simp
  · intro s hs
    simp only [buildStack, applicationLoadBalancedFargateService,
      applyOverride, Option.mem_def, Option.some_inj] at hs
    subst hs
    simp

/-- C2: the descriptor passed to the register-task-definition call has
exactly one container definition, essential, with the log configuration
copied from the placeholder's default container, exactly one mount point
at `/var/jenkins_home` (readOnly false), exactly one port mapping (tcp,
the configured container port), network mode awsvpc, Fargate-only
compatibility, exactly one declared volume with transit encryption
ENABLED bound to the access point; its image, CPU, memory, role ARNs and
family equal the placeholder task definition's corresponding fields. -/
theorem registered_descriptor_shape (env : Env) :
    (buildStack env).customTaskDefinition.onCreate.action = "registerTaskDefinition" ∧
    (buildStack env).customTaskDefinition.onCreate.parameters.containerDefinitions =
      [ { essential := true
          image := (buildStack env).loadBalancerFargateService.taskDefinition.image
          logConfiguration :=
            { logDriver :=
                (env.placeholder.defaultContainer.bind
                  (fun c => c.logDriverConfig)).map (fun l => l.logDriver)
              options :=
                (env.placeholder.defaultContainer.bind
                  (fun c => c.logDriverConfig)).bind (fun l => l.options) }
          memory := (buildStack env).loadBalancerFargateService.taskDefinition.memoryLimitMiB
          mountPoints :=
            [ { containerPath := "/var/jenkins_home", sourceVolume := "efs"
                readOnly := false } ]
          name := env.placeholder.defaultContainer.map (fun c => c.containerName)
          portMappings :=
            [ { containerPort := containerPort, protocol := "tcp" } ] } ] ∧
    (buildStack env).customTaskDefinition.onCreate.parameters.cpu =
      (buildStack env).loadBalancerFargateService.taskDefinition.cpu ∧
    (buildStack env).customTaskDefinition.onCreate.parameters.executionRoleArn =
      (buildStack env).loadBalancerFargateService.taskDefinition.executionRoleArn ∧
    (buildStack env).customTaskDefinition.onCreate.parameters.family =
      (buildStack env).loadBalancerFargateService.taskDefinition.family ∧
    (buildStack env).customTaskDefinition.onCreate.parameters.memory =
      (buildStack env).loadBalancerFargateService.taskDefinition.memoryLimitMiB ∧
    (buildStack env).customTaskDefinition.onCreate.parameters.networkMode = "awsvpc" ∧
    (buildStack env).customTaskDefinition.onCreate.parameters.requiresCompatibilities =
      ["FARGATE"] ∧
    (buildStack env).customTaskDefinition.onCreate.parameters.taskRoleArn =
      (buildStack env).loadBalancerFargateService.taskDefinition.taskRoleArn ∧
    (buildStack env).customTaskDefinition.onCreate.parameters.volumes =
      [ { name := "efs"
          efsVolumeConfiguration :=
            { fileSystemId := env.fileSystemId
              rootDirectory := "/"
              transitEncryption := "ENABLED"
              authorizationConfig := { accessPointId := env.accessPointId } } } ] :=
  ⟨rfl, rfl, rfl, rfl, rfl, rfl, rfl, rfl, rfl, rfl⟩

/-- C3: no run of the construction silently skips the override step.  The
service builder always creates the underlying `CfnService` child, the
optional-chained lookup therefore finds it, and the property override is
applied in every run; a run in which the override was not applied is never
produced. -/
theorem override_never_silently_skipped (env : Env) :
    (buildStack env).overrideApplied = true ∧
    (buildStack env).loadBalancerFargateService.cfnService =
      applyOverride (some { taskDefinition := TaskDefRef.placeholder })
        (TaskDefRef.customResponse "taskDefinition.taskDefinitionArn") :=
  ⟨rfl, rfl⟩

/-- A concrete deploy-time environment in which the library synthesized
every optional collaborator (execution role and default container both
present). -/
def sampleEnv : Env :=
  { certificateArn := "arn:aws:acm:cert"
    hostedZoneId := "Z123"
    clusterArn := "arn:aws:ecs:cluster"
    fileSystemId := "fs-1"
    accessPointId := "ap-1"
    placeholder :=
      { executionRoleArn := some "arn:aws:iam:exec-role"
        taskRoleArn := "arn:aws:iam:task-role"
        family := "jenkins-family"
        defaultContainer := some
          { containerName := "web"
            logDriverConfig := some
              { logDriver := "awslogs"
                options := some [("awslogs-group", "jenkins")] } } } }

/-- C4: whenever the placeholder task definition has an execution role,
the registering principal's pass-role grants cover both that execution
role and the task role — both grants are established, not just one. -/
theorem both_pass_role_grants (env : Env) (r : String)
    (h : env.placeholder.executionRoleArn = some r) :
    (buildStack env).passRoleGrants = [r, env.placeholder.taskRoleArn] ∧
    r ∈ (buildStack env).passRoleGrants ∧
    env.placeholder.taskRoleArn ∈ (buildStack env).passRoleGrants := by
  have hg : (buildStack env).passRoleGrants = [r, env.placeholder.taskRoleArn] := by
    simp only [buildStack, applicationLoadBalancedFargateService, h]
    rfl
  refine ⟨hg, ?_, ?_⟩ <;> rw [hg] <;> simp

/-- Witness for C4 at `sampleEnv`. -/
theorem both_pass_role_grants_witness :
    (buildStack sampleEnv).passRoleGrants =
      ["arn:aws:iam:exec-role", "arn:aws:iam:task-role"] ∧
    "arn:aws:iam:exec-role" ∈ (buildStack sampleEnv).passRoleGrants ∧
    "arn:aws:iam:task-role" ∈ (buildStack sampleEnv).passRoleGrants :=
  both_pass_role_grants sampleEnv "arn:aws:iam:exec-role" rfl

/-- C5: network access between the service and the file system is opened
in both directions on TCP port 2049: an allow-from (ingress) rule and an
allow-to (egress) rule both exist for every run. -/
theorem bidirectional_nfs_port_rules (env : Env) :
    ({ direction := Direction.ingress, peer := "JenkinsEfsFileSystem"
       protocol := "tcp", port := 2049 : ConnectionRule } ∈
        (buildStack env).connectionRules) ∧
    ({ direction := Direction.egress, peer := "JenkinsEfsFileSystem"
       protocol := "tcp", port := 2049 : ConnectionRule } ∈
        (buildStack env).connectionRules) := by
  constructor
  · exact List.Mem.head _
  · exact List.Mem.tail _ (List.Mem.head _)

/-- C6: the coordinator's onUpdate path is the very same call object as
its onCreate path — the same register-task-definition call with the same
descriptor — so an update of the coordinator's inputs re-registers a
fresh revision of the same descriptor. -/
theorem on_update_equals_on_create (env : Env) :
    (buildStack env).customTaskDefinition.onUpdate =
      (buildStack env).customTaskDefinition.onCreate ∧
    (buildStack env).customTaskDefinition.onCreate.service = "ECS" ∧
    (buildStack env).customTaskDefinition.onCreate.action = "registerTaskDefinition" ∧
    (buildStack env).customTaskDefinition.onCreate.parameters =
      (buildStack env).customTaskDefinitionJson :=
  ⟨rfl, rfl, rfl, rfl⟩

/-- Where a configuration value of the stack comes from: an SSM parameter
lookup, a context lookup against the deploy account, or a literal fixed in
the program text. -/
inductive Origin where
  | ssmLookup (parameterName : String) : Origin
  | contextLookup (lookupKind : String) : Origin
  | hardcoded (value : String) : Origin
deriving DecidableEq, Repr

/-- A named configuration input of the stack together with its origin. -/
structure ConfigInput where
  name : String
  origin : Origin
deriving DecidableEq, Repr

/-- An origin counts as read from external configuration when it is a
lookup resolved outside the program text. -/
def readFromExternalConfiguration : Origin → Bool
  | Origin.ssmLookup _ => true
  | Origin.contextLookup _ => true
  | Origin.hardcoded _ => false

/-- The configuration inputs of the stack and where each one comes from,
translated from the source: the VPC is resolved by `Vpc.fromLookup` with
the literal flag `isDefault: true` (line 17); the certificate ARN and the
hosted-zone id are SSM lookups (lines 35 and 38); the zone name is the
literal "benkhard.com" (line 39); image, cpu, memory and container port
are the literals of lines 79-82; the desired count is the literal 1 of
line 88; the deploy account and region are literals in the bin entry
point. -/
def configInputs : List ConfigInput :=
  [ { name := "network", origin := Origin.contextLookup "defaultVpc" }
  , { name := "networkIsDefaultFlag", origin := Origin.hardcoded "true" }
  , { name := "wildcardCertificateArn"
      origin := Origin.ssmLookup "/com/benkhard/wildcard-certificate" }
  , { name := "hostedZoneId"
      origin := Origin.ssmLookup "/com/benkhard/public-hosted-zone-id" }
  , { name := "hostedZoneName", origin := Origin.hardcoded "benkhard.com" }
  , { name := "containerImage", origin := Origin.hardcoded "jenkins/jenkins" }
  , { name := "cpu", origin := Origin.hardcoded "256" }
  , { name := "memoryLimitMiB", origin := Origin.hardcoded "1024" }
  , { name := "containerPort", origin := Origin.hardcoded "8080" }
  , { name := "desiredCount", origin := Origin.hardcoded "1" }
  , { name := "deployAccount", origin := Origin.hardcoded "111972343318" }
  , { name := "deployRegion", origin := Origin.hardcoded "eu-west-1" } ]

/-- C7 counterexample: the container image reference is a literal fixed in
the program ("jenkins/jenkins", source line 79), so it is false that every
listed configuration input is read from external configuration at resolve
time. -/
theorem config_inputs_counterexample :
    ({ name := "containerImage", origin := Origin.hardcoded "jenkins/jenkins"
       : ConfigInput } ∈ configInputs) ∧
    readFromExternalConfiguration (Origin.hardcoded "jenkins/jenkins") = false ∧
    ¬ ∀ i ∈ configInputs, readFromExternalConfiguration i.origin = true := by
  decide

/-- C7 amended: of the listed configuration inputs, exactly the network
lookup, the wildcard certificate reference and the hosted-zone id are read
from external configuration at resolve time; the default-network flag,
the zone name, the container image, CPU, memory, container port, desired
replica count and the deploy account/region are fixed inside the
program. -/
theorem config_inputs_amended :
    (configInputs.filter
        (fun i => readFromExternalConfiguration i.origin)).map (fun i => i.name) =
      ["network", "wildcardCertificateArn", "hostedZoneId"] ∧
    (configInputs.filter
        (fun i => !readFromExternalConfiguration i.origin)).map (fun i => i.name) =
      [ "networkIsDefaultFlag", "hostedZoneName", "containerImage", "cpu"
      , "memoryLimitMiB", "containerPort", "desiredCount", "deployAccount"
      , "deployRegion" ] := by
  decide

/-- C8: with the program's inputs (image "jenkins/jenkins", cpu 256,
memory 1024, port 8080, desired count 1), the construction produces a
service with desired count 1, one registered task definition whose single
container mounts the volume at `/var/jenkins_home`, one access point at
path `/jenkins` with POSIX uid/gid 1000, and a target-group health check
at path `/login` behind the HTTPS (TLS) listener. -/
theorem end_to_end_scenario (env : Env) :
    (buildStack env).loadBalancerFargateService.props.image = "jenkins/jenkins" ∧
    (buildStack env).loadBalancerFargateService.props.cpu = 256 ∧
    (buildStack env).loadBalancerFargateService.props.memoryLimitMiB = 1024 ∧
    (buildStack env).loadBalancerFargateService.props.containerPort = 8080 ∧
    (buildStack env).loadBalancerFargateService.props.desiredCount = 1 ∧
    (buildStack env).customTaskDefinition.onCreate.parameters.containerDefinitions.map
        (fun c => c.mountPoints) =
      [ [ { containerPath := "/var/jenkins_home", sourceVolume := "efs"
            readOnly := false } ] ] ∧
    (buildStack env).accessPoint =
      { aclOwnerGid := "1000", aclOwnerUid := "1000", aclPermissions := "777"
        path := "/jenkins", posixGid := "1000", posixUid := "1000" } ∧
    (buildStack env).loadBalancerFargateService.targetGroup.healthCheckPath = "/login" ∧
    (buildStack env).loadBalancerFargateService.listenerProtocol = "HTTPS" :=
  ⟨rfl, rfl, rfl, rfl, rfl, rfl, rfl, rfl, rfl⟩

/-- A concrete deploy-time environment in which neither the execution role
nor the default container was synthesized. -/
def bareEnv : Env :=
  { certificateArn := "arn:aws:acm:cert"
    hostedZoneId := "Z123"
    clusterArn := "arn:aws:ecs:cluster"
    fileSystemId := "fs-1"
    accessPointId := "ap-1"
    placeholder :=
      { executionRoleArn := none
        taskRoleArn := "arn:aws:iam:task-role"
        family := "jenkins-family"
        defaultContainer := none } }

/-- C9: construction is total when the optional collaborators are absent
(`buildStack` is a total function; the source reads them only through
optional chaining): with no execution role and no default container, the
pass-role grants reduce to just the task role, and the registered
descriptor's executionRoleArn, container name, log driver and log options
are all undefined rather than an error. -/
theorem total_without_optional_collaborators (env : Env)
    (hE : env.placeholder.executionRoleArn = none)
    (hC : env.placeholder.defaultContainer = none) :
    (buildStack env).passRoleGrants = [env.placeholder.taskRoleArn] ∧
    (buildStack env).customTaskDefinitionJson.executionRoleArn = none ∧
    (buildStack env).customTaskDefinitionJson.containerDefinitions.map
      (fun c => c.name) = [none] ∧
    (buildStack env).customTaskDefinitionJson.containerDefinitions.map
      (fun c => c.logConfiguration) = [{ logDriver := none, options := none }] := by
  refine ⟨?_, ?_, ?_, ?_⟩ <;>
    simp [buildStack, applicationLoadBalancedFargateService, hE, hC]

/-- Witness for C9 at `bareEnv`. -/
theorem total_without_optional_collaborators_witness :
    (buildStack bareEnv).passRoleGrants = ["arn:aws:iam:task-role"] ∧
    (buildStack bareEnv).customTaskDefinitionJson.executionRoleArn = none ∧
    (buildStack bareEnv).customTaskDefinitionJson.containerDefinitions.map
      (fun c => c.name) = [none] ∧
    (buildStack bareEnv).customTaskDefinitionJson.containerDefinitions.map
      (fun c => c.logConfiguration) = [{ logDriver := none, options := none }] :=
  total_without_optional_collaborators bareEnv rfl rfl

/-- C10: the declared EFS volume's root directory is always "/" (not
"/jenkins"); the scoping of storage to the `/jenkins` path and the fixed
uid/gid 1000 identity is carried entirely by the access-point binding in
the volume's authorization config, for every volume in the registered
configuration. -/
theorem volume_root_is_slash (env : Env) :
    (buildStack env).efsVolume.efsVolumeConfiguration.rootDirectory = "/" ∧
    (buildStack env).efsVolume.efsVolumeConfiguration.rootDirectory ≠ "/jenkins" ∧
    (buildStack env).efsVolume.efsVolumeConfiguration.authorizationConfig.accessPointId
      = env.accessPointId ∧
    (buildStack env).accessPoint.path = "/jenkins" ∧
    (buildStack env).accessPoint.posixUid = "1000" ∧
    (buildStack env).accessPoint.posixGid = "1000" ∧
    ∀ v ∈ (buildStack env).customTaskDefinitionJson.volumes,
      v.efsVolumeConfiguration.rootDirectory = "/" ∧
      v.efsVolumeConfiguration.authorizationConfig.accessPointId = env.accessPointId := by
  refine ⟨rfl, ?_, rfl, rfl, rfl, rfl, ?_⟩
  · show ("/" : String) ≠ "/jenkins"
    decide
  intro v hv
  simp only [buildStack, List.mem_singleton] at hv
  subst hv
  exact ⟨rfl, rfl⟩

end BenkhardJenkins
